import Mathlib

/-!
Verification of the answer-scoring and aggregation logic of the
Preparatory Question Generator Platform, a shallow embedding of
src/app/api/grade/route.ts.  The file embeds both revisions found in that
route: the primary handler with calculateScore and the GradingService
revision.  JavaScript numbers are modelled as rationals, and the external
LLM collaborator as an optional structured response passed explicitly; the
value none stands for an unavailable or failing collaborator, which the
route handles through its catch fallback.
-/

/-- Question record of the primary grading route.  The type field is kept as
a raw string because the route compares it against string literals at
runtime, and the TypeScript union is erased there. -/
structure Question where
  id : String
  type : String
  question : String
  options : Option (List String) := none
  correctAnswer : Option String := none
  correctAnswers : Option (List String) := none
  difficulty : String
  weight : Rat
  scale : Option String := none
deriving DecidableEq

/-- A submitted answer referencing a question. -/
structure UserAnswer where
  questionId : String
  answer : String
deriving DecidableEq

/-- The triple returned by calculateScore. -/
structure ScoreResult where
  score : Rat
  maxScore : Rat
  isCorrect : Bool
deriving DecidableEq

/-- Structured response of the external LLM grader used by calculateScore,
holding the fields the route reads from the parsed JSON. -/
structure AIResp where
  score : Rat
  isCorrect : Bool
deriving DecidableEq

/-- JavaScript Math.round: half-up rounding, the floor of x + 1/2. -/
def jsRound (x : Rat) : Int := ⌊x + 1/2⌋

/-- Rounding to two decimal places: Math.round of 100 x, divided by 100. -/
def round2 (x : Rat) : Rat := ((jsRound (x * 100) : Int) : Rat) / 100

/-- JavaScript truthiness of an optional string: undefined and the empty
string are falsy. -/
def truthyStr : Option String → Bool
  | none => false
  | some s => s != ""

/-- JavaScript truthiness of an optional array: any array, even the empty
one, is truthy. -/
def truthyList : Option (List String) → Bool
  | none => false
  | some _ => true

/-- The JavaScript expression weight-or-one, where the number 0 is falsy. -/
def weightOr1 (w : Rat) : Rat := if w = 0 then 1 else w

/-- Case-folding of a string, the per-character lowering JavaScript
toLowerCase performs on ASCII letters. -/
def strLower (s : String) : String := ⟨s.data.map Char.toLower⟩

/-- Removal of leading and trailing whitespace, as JavaScript trim. -/
def strTrim (s : String) : String :=
  ⟨((s.data.dropWhile Char.isWhitespace).reverse.dropWhile Char.isWhitespace).reverse⟩

/-- Splitting a character list at commas; the empty list yields one empty
piece, as JavaScript split on a string with no separator occurrence. -/
def splitCommaChars : List Char → List (List Char)
  | [] => [[]]
  | c :: t =>
    match splitCommaChars t, decide (c = ',') with
    | r, true => [] :: r
    | [], false => [[c]]
    | h :: t2, false => (c :: h) :: t2

/-- Splitting a string at commas, as JavaScript split with separator comma. -/
def strSplitComma (s : String) : List String :=
  (splitCommaChars s.data).map (fun l => String.mk l)

/-- The split and per-item trim of a comma separated multi-choice answer. -/
def userSelections (ans : String) : List String :=
  (strSplitComma ans).map (fun a => strTrim a)

/-- Correct answers used by multi-choice grading: the correctAnswers array
when present, else the single correctAnswer promoted to a singleton when
truthy, else the empty list. -/
def effectiveCorrects (q : Question) : List String :=
  match q.correctAnswers with
  | some l => l
  | none =>
    match q.correctAnswer with
    | some ca => if ca = "" then [] else [ca]
    | none => []

/-- Number of user selections whose case-folded form matches the case-folded
form of some configured correct answer. -/
def multiCorrectCount (corrects sels : List String) : Nat :=
  (sels.filter (fun a => corrects.any (fun c => decide (strLower c = strLower a)))).length

/-- AI grading path of calculateScore: the response score is clamped into
the interval from 0 to maxScore; a failing collaborator reaches the catch
block, which awards full credit. -/
def aiGrade (ai : Option AIResp) (maxScore : Rat) : ScoreResult :=
  match ai with
  | none => ⟨maxScore, maxScore, true⟩
  | some r =>
    ⟨max 0 (min maxScore r.score), maxScore,
      r.isCorrect || decide (r.score ≥ maxScore * (4/5))⟩

/-- Embedding of calculateScore from the primary grade route. -/
def calculateScore (ai : Option AIResp) (question : Option Question)
    (userAnswer : Option UserAnswer) : ScoreResult :=
  match question, userAnswer with
  | some q, some ua =>
    let maxScore : Rat := max 1 (weightOr1 q.weight)
    if ua.answer = "" then ⟨0, maxScore, false⟩
    else if (q.type = "yes-no" ∨ q.type = "multiple-choice-single"
          ∨ q.type = "multiple-choice-multi")
        ∧ (truthyStr q.correctAnswer = true ∨ truthyList q.correctAnswers = true) then
      if q.type = "multiple-choice-multi" then
        let corrects := effectiveCorrects q
        if corrects.length = 0 then ⟨0, maxScore, false⟩
        else
          let sels := userSelections ua.answer
          let c := multiCorrectCount corrects sels
          let i := sels.length - c
          let score := max 0 ((c : Rat) * maxScore / (corrects.length : Rat)
            - (i : Rat) * maxScore / (corrects.length : Rat))
          ⟨round2 score, maxScore, decide (score = maxScore)⟩
      else
        match q.correctAnswer with
        | some ca =>
          if ca = "" then ⟨0, maxScore, false⟩
          else if strLower ca = strLower ua.answer then ⟨maxScore, maxScore, true⟩
          else ⟨0, maxScore, false⟩
        | none => ⟨0, maxScore, false⟩
    else aiGrade ai maxScore
  | _, _ => ⟨0, 1, false⟩

/-- Per-question grading result, shared by both revisions of the route. -/
structure GradingResult where
  questionId : String
  score : Rat
  maxScore : Rat
  feedback : String
  isCorrect : Bool
deriving DecidableEq

/-- Summary produced by the aggregation step. -/
structure OverallScore where
  totalScore : Rat
  maxPossibleScore : Rat
  percentage : Rat
deriving DecidableEq

/-- Aggregation performed inline by the primary route handler: reduce over
scores and max scores, then a percentage rounded to one decimal place. -/
def aggregateResults (rs : List GradingResult) : OverallScore :=
  let totalScore := rs.foldl (fun sum r => sum + r.score) 0
  let maxPossibleScore := rs.foldl (fun sum r => sum + r.maxScore) 0
  ⟨totalScore, maxPossibleScore,
    if maxPossibleScore > 0 then
      ((jsRound (totalScore / maxPossibleScore * 1000) : Int) : Rat) / 10
    else 0⟩

/-- Question record of the GradingService revision, which has no weight
field and an optional rubric. -/
structure Question2 where
  id : String
  type : String
  question : String
  options : Option (List String) := none
  correctAnswer : Option String := none
  correctAnswers : Option (List String) := none
  rubric : Option String := none
  difficulty : String
deriving DecidableEq

/-- Structured response of the LLM rubric grader used by the GradingService
revision for open-ended question types. -/
structure AIResp2 where
  score : Rat
  feedback : String
  isCorrect : Bool
deriving DecidableEq

/-- Embedding of GradingService.gradeSingleChoice: trimmed, case-folded
comparison against the single correct answer, scored out of 1. -/
def gradeSingleChoice (q : Question2) (userAnswer : String) : GradingResult :=
  match q.correctAnswer with
  | none => ⟨q.id, 0, 1, "No correct answer defined for this question.", false⟩
  | some ca =>
    if ca = "" then ⟨q.id, 0, 1, "No correct answer defined for this question.", false⟩
    else
      let isCorrect := strLower (strTrim userAnswer) = strLower (strTrim ca)
      ⟨q.id, if isCorrect then 1 else 0, 1,
        if isCorrect then "Correct!" else "Incorrect. The correct answer is: " ++ ca,
        decide isCorrect⟩

/-- Embedding of GradingService.gradeMultiChoice: an F1 measure of the
selected set against the correct set, rounded to one decimal and capped at 1. -/
def gradeMultiChoice (q : Question2) (userAnswer : String) : GradingResult :=
  let correctAnswers := q.correctAnswers.getD []
  if correctAnswers.length = 0 then
    ⟨q.id, 0, 1, "No correct answers provided for this question.", false⟩
  else if userAnswer = "" ∨ strTrim userAnswer = "" then
    ⟨q.id, 0, 1, "No answer provided.", false⟩
  else
    let sels := (strSplitComma userAnswer).map (fun a => strLower (strTrim a))
    let correctSet := (correctAnswers.map (fun a => strLower a)).dedup
    let correctCount := (sels.filter (fun a => correctSet.contains a)).length
    let precisionV : Rat :=
      if sels.length > 0 then (correctCount : Rat) / (sels.length : Rat) else 0
    let recallV : Rat :=
      if correctSet.length > 0 then (correctCount : Rat) / (correctSet.length : Rat) else 0
    let f1 : Rat :=
      if precisionV + recallV > 0 then 2 * precisionV * recallV / (precisionV + recallV) else 0
    let score := min (((jsRound (f1 * 10) : Int) : Rat) / 10) 1
    ⟨q.id, min score 1, 1,
      "You selected " ++ toString correctCount ++ " correct options out of "
        ++ toString correctSet.length ++ " total correct options.",
      decide (score = 1)⟩

/-- Embedding of GradingService.gradeOpenEnded: empty answers score 0 out of
5; otherwise the LLM response score is capped at 5, with failures of the
collaborator or of JSON parsing scoring 0. -/
def gradeOpenEnded (ai : Option AIResp2) (q : Question2) (userAnswer : String) :
    GradingResult :=
  if userAnswer = "" ∨ strTrim userAnswer = "" then
    ⟨q.id, 0, 5, "No answer provided.", false⟩
  else
    match ai with
    | none => ⟨q.id, 0, 5, "Unable to grade this answer. Please try again.", false⟩
    | some r => ⟨q.id, min r.score 5, 5, r.feedback, decide (r.score ≥ 5 * (7/10))⟩

/-- Embedding of GradingService.gradeAnswer: input validation, then dispatch
on the question type string, with a defensive default branch. -/
def gradeAnswer (ai : Option AIResp2) (question : Option Question2)
    (userAnswer : Option String) : GradingResult :=
  match question with
  | none => ⟨"unknown", 0, 1, "Invalid question provided.", false⟩
  | some q =>
    match userAnswer with
    | none => ⟨q.id, 0, 1, "No answer provided.", false⟩
    | some ans =>
      if q.type = "yes-no" ∨ q.type = "multiple-choice-single" then
        gradeSingleChoice q ans
      else if q.type = "multiple-choice-multi" then
        gradeMultiChoice q ans
      else if q.type = "scale" ∨ q.type = "rating" then
        gradeOpenEnded ai q ans
      else ⟨q.id, 0, 1, "Unsupported question type.", false⟩

/-- Embedding of GradingService.calculateOverallScore: sums plus an
unrounded percentage, with an explicit all-zero result on empty input. -/
def calculateOverallScore (rs : List GradingResult) : OverallScore :=
  if rs = [] then ⟨0, 0, 0⟩
  else
    let totalScore := rs.foldl (fun sum r => sum + r.score) 0
    let maxPossibleScore := rs.foldl (fun sum r => sum + r.maxScore) 0
    ⟨totalScore, maxPossibleScore,
      if maxPossibleScore > 0 then totalScore / maxPossibleScore * 100 else 0⟩

/-- Spec formula ingredient for multi-choice grading: the number of correct
selections. -/
def specCorrectSelected (q : Question) (ua : UserAnswer) : Nat :=
  multiCorrectCount (effectiveCorrects q) (userSelections ua.answer)

/-- Spec formula ingredient for multi-choice grading: the number of
incorrect selections. -/
def specIncorrectSelected (q : Question) (ua : UserAnswer) : Nat :=
  (userSelections ua.answer).length - specCorrectSelected q ua

/-- Modelled from the spec wording for the multi-choice rule: weight times
the maximum of 0 and correctSelected over totalCorrect minus
incorrectSelected over totalCorrect, before rounding. -/
def specMultiScore (q : Question) (ua : UserAnswer) : Rat :=
  q.weight * max 0
    ((specCorrectSelected q ua : Rat) / ((effectiveCorrects q).length : Rat)
      - (specIncorrectSelected q ua : Rat) / ((effectiveCorrects q).length : Rat))

def exMultiQ : Question :=
  { id := "m1", type := "multiple-choice-multi", question := "pick",
    options := some (["A", "B", "C", "D"]), correctAnswers := some (["A", "B"]),
    difficulty := "easy", weight := 10 }

def exMultiUA : UserAnswer := { questionId := "m1", answer := "A,C" }

def exYesQ : Question :=
  { id := "y1", type := "yes-no", question := "ok", correctAnswer := some ("Yes"),
    difficulty := "easy", weight := 5 }

def exYesUA : UserAnswer := { questionId := "y1", answer := "yes" }

def exScaleQ : Question :=
  { id := "s1", type := "scale", question := "rate", difficulty := "easy", weight := 3 }

def exScaleUA : UserAnswer := { questionId := "s1", answer := "4" }

def exDupQ : Question :=
  { id := "d1", type := "multiple-choice-multi", question := "pick",
    correctAnswers := some (["a", "b"]), difficulty := "easy", weight := 1 }

def exDupUA : UserAnswer := { questionId := "d1", answer := "a,a,a" }

/-- Comma separator string used when composing the large counterexample
answer. -/
def commaStr : String := ","

/-- A pool of 201 distinct two-letter option names. -/
def bigCorrects : List String :=
  (List.range 201).map
    (fun i => String.mk [Char.ofNat (97 + i / 26), Char.ofNat (97 + i % 26)])

/-- An answer selecting every correct option once plus one incorrect
option. -/
def bigAnswer : String := String.intercalate commaStr (bigCorrects ++ ["zz"])

/-- A multi-choice question with 201 correct options and weight 1. -/
def bigQ : Question :=
  { id := "b1", type := "multiple-choice-multi", question := "pick",
    correctAnswers := some bigCorrects, difficulty := "easy", weight := 1 }

def bigUA : UserAnswer := { questionId := "b1", answer := bigAnswer }

/-- A small strict-superset instance: correct options a and b, answer
selecting a, b and the incorrect z. -/
def exSupQ : Question :=
  { id := "p1", type := "multiple-choice-multi", question := "pick",
    correctAnswers := some (["a", "b"]), difficulty := "easy", weight := 1 }

def exSupUA : UserAnswer := { questionId := "p1", answer := "a,b,z" }

/-! ### Helper lemmas -/

theorem maxScore_eq_weight (w : Rat) (hw : 1 ≤ w) : max 1 (weightOr1 w) = w := by
  have hw0 : w ≠ 0 := by intro h; rw [h] at hw; norm_num at hw
  rw [weightOr1, if_neg hw0, max_eq_right hw]

theorem one_le_maxScore (w : Rat) : 1 ≤ max 1 (weightOr1 w) := le_max_left 1 _

theorem truthy_of_corrects_ne_nil (q : Question) (h : effectiveCorrects q ≠ []) :
    truthyStr q.correctAnswer = true ∨ truthyList q.correctAnswers = true := by
  by_contra hc
  push_neg at hc
  obtain ⟨h1, h2⟩ := hc
  apply h
  unfold effectiveCorrects
  cases hcas : q.correctAnswers with
  | some l => rw [hcas] at h2; exact absurd rfl h2
  | none =>
    cases hca : q.correctAnswer with
    | none => rfl
    | some ca =>
      rw [hca] at h1
      have hce : ca = "" := by
        by_contra hne
        exact h1 (by simp [truthyStr, hne])
      show (if ca = "" then [] else [ca]) = ([] : List String)
      rw [if_pos hce]

theorem mul_max_sub_div (w c i n : Rat) (hw : 0 ≤ w) :
    w * max 0 (c / n - i / n) = max 0 (c * w / n - i * w / n) := by
  rw [mul_max_of_nonneg _ _ hw, mul_zero]
  congr 1
  ring

/-- Claim C7: a missing Question or a missing UserAnswer makes the scorer
return the default failing grade with score 0, maxScore 1 and isCorrect
false, without throwing. -/
theorem claim_C7 (ai : Option AIResp) (oq : Option Question) (oua : Option UserAnswer)
    (h : oq = none ∨ oua = none) :
    calculateScore ai oq oua = ⟨0, 1, false⟩ := by
  rcases h with h | h
  · subst h; cases oua <;> rfl
  · subst h; cases oq <;> rfl

theorem claim_C7_witness :
    ((none : Option Question) = none ∨ (none : Option UserAnswer) = none) ∧
    calculateScore none none none = ⟨0, 1, false⟩ :=
  ⟨Or.inl rfl, claim_C7 none none none (Or.inl rfl)⟩

/-- Claim C1: for a multi-choice question with a non-empty configured set of
correct answers and a non-empty answer, the scorer returns the spec formula
weight times max 0 of correctSelected over totalCorrect minus
incorrectSelected over totalCorrect, rounded to two decimals, and isCorrect
holds exactly when the unrounded formula value equals the weight. -/
theorem claim_C1 (ai : Option AIResp) (q : Question) (ua : UserAnswer)
    (hty : q.type = "multiple-choice-multi") (hw : 1 ≤ q.weight)
    (hcor : effectiveCorrects q ≠ []) (hans : ua.answer ≠ "") :
    (calculateScore ai (some q) (some ua)).score = round2 (specMultiScore q ua) ∧
    (calculateScore ai (some q) (some ua)).isCorrect
      = decide (specMultiScore q ua = q.weight) ∧
    (calculateScore ai (some q) (some ua)).maxScore = q.weight := by
  have hM := maxScore_eq_weight q.weight hw
  have hg := truthy_of_corrects_ne_nil q hcor
  have hlen : ¬ (effectiveCorrects q).length = 0 := by
    simpa [List.length_eq_zero] using hcor
  have hw0 : (0:Rat) ≤ q.weight := le_trans (by norm_num) hw
  have hspec : specMultiScore q ua
      = q.weight * max 0
        ((multiCorrectCount (effectiveCorrects q) (userSelections ua.answer) : Rat)
            / ((effectiveCorrects q).length : Rat)
          - (((userSelections ua.answer).length
              - multiCorrectCount (effectiveCorrects q) (userSelections ua.answer) : Nat) : Rat)
            / ((effectiveCorrects q).length : Rat)) := rfl
  simp only [calculateScore]
  rw [if_neg hans, if_pos (And.intro (Or.inr (Or.inr hty)) hg), if_pos hty, if_neg hlen]
  refine ⟨?_, ?_, hM⟩
  · rw [hM, hspec, mul_max_sub_div _ _ _ _ hw0]
  · rw [hM, hspec, mul_max_sub_div _ _ _ _ hw0]

theorem claim_C1_witness :
    (1 ≤ exMultiQ.weight ∧ effectiveCorrects exMultiQ ≠ [] ∧ exMultiUA.answer ≠ "") ∧
    (calculateScore none (some exMultiQ) (some exMultiUA)).score = 0 ∧
    (calculateScore none (some exMultiQ) (some exMultiUA)).isCorrect = false := by
  obtain ⟨h1, h2, h3⟩ := claim_C1 none exMultiQ exMultiUA rfl
    (by with_unfolding_all decide) (by with_unfolding_all decide)
    (by with_unfolding_all decide)
  refine ⟨⟨by with_unfolding_all decide, by with_unfolding_all decide,
    by with_unfolding_all decide⟩, h1.trans ?_, h2.trans ?_⟩
  · with_unfolding_all decide
  · with_unfolding_all decide

/-- Claim C4: for a yes-no or single-choice question with a truthy correct
answer and a non-empty user answer, the scorer compares the two strings
case-folded but untrimmed, awarding the full weight exactly on equality. -/
theorem claim_C4 (ai : Option AIResp) (q : Question) (ua : UserAnswer) (ca : String)
    (hty : q.type = "yes-no" ∨ q.type = "multiple-choice-single")
    (hca : q.correctAnswer = some ca) (hne : ca ≠ "") (hans : ua.answer ≠ "")
    (hw : 1 ≤ q.weight) :
    calculateScore ai (some q) (some ua)
      = ⟨if strLower ca = strLower ua.answer then q.weight else 0, q.weight,
          decide (strLower ca = strLower ua.answer)⟩ := by
  have hM := maxScore_eq_weight q.weight hw
  have hmulti : ¬ q.type = "multiple-choice-multi" := by
    rcases hty with h | h <;> rw [h] <;> intro hh <;> simp at hh
  have htr : truthyStr q.correctAnswer = true := by rw [hca]; simp [truthyStr, hne]
  simp only [calculateScore]
  rw [if_neg hans, if_pos (And.intro (by tauto) (Or.inl htr)), if_neg hmulti]
  split
  next ca2 hca2 =>
    rw [hca] at hca2
    obtain rfl : ca = ca2 := Option.some.inj hca2
    rw [if_neg hne]
    by_cases hc : strLower ca = strLower ua.answer
    · rw [if_pos hc, if_pos hc, hM]
      simp [hc]
    · rw [if_neg hc, if_neg hc, hM]
      simp [hc]
  next hca2 => rw [hca] at hca2; simp at hca2

theorem claim_C4_witness :
    calculateScore none (some exYesQ) (some exYesUA) = ⟨5, 5, true⟩ := by
  have h := claim_C4 none exYesQ exYesUA ("Yes") (Or.inl rfl) rfl
    (by with_unfolding_all decide) (by with_unfolding_all decide)
    (by with_unfolding_all decide)
  rw [h]
  with_unfolding_all decide

/-- Claim C5: under the network-free deterministic semantics, a scale or
rating question, or any question with no truthy configured correct answer,
is awarded full credit whenever an answer is present and zero when the
answer is absent. -/
theorem claim_C5 (q : Question) (ua : UserAnswer)
    (h : q.type = "scale" ∨ q.type = "rating"
      ∨ (truthyStr q.correctAnswer = false ∧ truthyList q.correctAnswers = false)) :
    (ua.answer ≠ "" →
      calculateScore none (some q) (some ua)
        = ⟨max 1 (weightOr1 q.weight), max 1 (weightOr1 q.weight), true⟩) ∧
    (ua.answer = "" →
      calculateScore none (some q) (some ua) = ⟨0, max 1 (weightOr1 q.weight), false⟩) := by
  have hguard : ¬ ((q.type = "yes-no" ∨ q.type = "multiple-choice-single"
        ∨ q.type = "multiple-choice-multi")
      ∧ (truthyStr q.correctAnswer = true ∨ truthyList q.correctAnswers = true)) := by
    rcases h with h | h | ⟨h1, h2⟩
    · rintro ⟨ht, -⟩; rcases ht with ht | ht | ht <;> rw [h] at ht <;> simp at ht
    · rintro ⟨ht, -⟩; rcases ht with ht | ht | ht <;> rw [h] at ht <;> simp at ht
    · rintro ⟨-, ht⟩
      rcases ht with ht | ht
      · rw [h1] at ht; simp at ht
      · rw [h2] at ht; simp at ht
  constructor
  · intro hans
    simp only [calculateScore]
    rw [if_neg hans, if_neg hguard]
    rfl
  · intro hans
    simp only [calculateScore]
    rw [if_pos hans]

theorem claim_C5_witness :
    (calculateScore none (some exScaleQ) (some exScaleUA)).score
        = (calculateScore none (some exScaleQ) (some exScaleUA)).maxScore ∧
    (calculateScore none (some exScaleQ) (some exScaleUA)).isCorrect = true := by
  have h := (claim_C5 exScaleQ exScaleUA (Or.inl rfl)).1 (by with_unfolding_all decide)
  rw [h]
  exact ⟨rfl, rfl⟩

theorem gradeSingleChoice_maxScore (q : Question2) (a : String) :
    (gradeSingleChoice q a).maxScore = 1 := by
  simp only [gradeSingleChoice]
  split
  · rfl
  · split <;> rfl

theorem gradeMultiChoice_maxScore (q : Question2) (a : String) :
    (gradeMultiChoice q a).maxScore = 1 := by
  simp only [gradeMultiChoice]
  split_ifs <;> rfl

theorem gradeOpenEnded_maxScore (ai : Option AIResp2) (q : Question2) (a : String) :
    (gradeOpenEnded ai q a).maxScore = 5 := by
  simp only [gradeOpenEnded]
  split
  · rfl
  · split <;> rfl

/-- Claim C10: in the GradingService revision the returned maxScore is
determined by the question type alone, 5 for scale and rating and 1 for
every other type; the Question record of that revision carries no weight
field, so no weight can influence it. -/
theorem claim_C10 (ai : Option AIResp2) (q : Question2) (ans : String) :
    (gradeAnswer ai (some q) (some ans)).maxScore
      = if q.type = "scale" ∨ q.type = "rating" then 5 else 1 := by
  by_cases h3 : q.type = "scale" ∨ q.type = "rating"
  · rw [if_pos h3]
    have h1 : ¬ (q.type = "yes-no" ∨ q.type = "multiple-choice-single") := by
      rintro (h | h) <;> rcases h3 with h3 | h3 <;> rw [h3] at h <;> simp at h
    have h2 : ¬ q.type = "multiple-choice-multi" := by
      intro h; rcases h3 with h3 | h3 <;> rw [h3] at h <;> simp at h
    simp only [gradeAnswer]
    rw [if_neg h1, if_neg h2, if_pos h3, gradeOpenEnded_maxScore]
  · rw [if_neg h3]
    simp only [gradeAnswer]
    by_cases h1 : q.type = "yes-no" ∨ q.type = "multiple-choice-single"
    · rw [if_pos h1, gradeSingleChoice_maxScore]
    · rw [if_neg h1]
      by_cases h2 : q.type = "multiple-choice-multi"
      · rw [if_pos h2, gradeMultiChoice_maxScore]
      · rw [if_neg h2, if_neg h3]

theorem foldl_add_map (f : GradingResult → Rat) (a : Rat) (l : List GradingResult) :
    l.foldl (fun sum r => sum + f r) a = a + (l.map f).sum := by
  induction l generalizing a with
  | nil => simp
  | cons r t ih =>
    rw [List.foldl_cons, List.map_cons, List.sum_cons, ih]
    ring

theorem aggregateResults_spec (rs : List GradingResult) :
    aggregateResults rs
      = ⟨(rs.map GradingResult.score).sum, (rs.map GradingResult.maxScore).sum,
          if (rs.map GradingResult.maxScore).sum > 0 then
            ((jsRound ((rs.map GradingResult.score).sum
              / (rs.map GradingResult.maxScore).sum * 1000) : Int) : Rat) / 10
          else 0⟩ := by
  unfold aggregateResults
  rw [foldl_add_map, foldl_add_map, zero_add, zero_add]

theorem jsRound_nonneg (x : Rat) (hx : 0 ≤ x) : 0 ≤ jsRound x :=
  Int.le_floor.mpr (by push_cast; linarith)

theorem floor_half : ⌊(1:Rat)/2⌋ = 0 := by
  rw [Int.floor_eq_zero_iff]
  constructor <;> norm_num

theorem jsRound_le_int (x : Rat) (k : Int) (hx : x ≤ (k:Rat)) : jsRound x ≤ k := by
  have h1 : x + 1/2 ≤ 1/2 + (k:Rat) := by linarith
  have h2 : ⌊(1:Rat)/2 + (k:Rat)⌋ = ⌊(1:Rat)/2⌋ + k := Int.floor_add_int _ _
  calc jsRound x = ⌊x + 1/2⌋ := rfl
    _ ≤ ⌊(1:Rat)/2 + (k:Rat)⌋ := Int.floor_mono h1
    _ = k := by rw [h2, floor_half, zero_add]

theorem jsRound_zero : jsRound 0 = 0 := by
  rw [jsRound, zero_add, floor_half]

/-- Claim C2 counterexample: GradingService.calculateOverallScore does not
round; on a single result with score 1 and maxScore 3 its percentage is
100/3, not the one-decimal rounded value the claim states. -/
theorem claim_C2_counterexample :
    (calculateOverallScore [⟨"q1", 1, 3, "fb", false⟩]).maxPossibleScore > 0 ∧
    (calculateOverallScore [⟨"q1", 1, 3, "fb", false⟩]).percentage
      ≠ ((jsRound ((calculateOverallScore [⟨"q1", 1, 3, "fb", false⟩]).totalScore
          / (calculateOverallScore [⟨"q1", 1, 3, "fb", false⟩]).maxPossibleScore * 1000)
            : Int) : Rat) / 10 := by
  constructor
  · with_unfolding_all decide
  · with_unfolding_all decide

/-- Claim C2 amended: the route-handler aggregation returns the summed
scores and max scores with the percentage rounded to one decimal place and
the all-zero summary on empty input, while the GradingService revision
returns the same sums but the unrounded percentage 100 multiplied by the
ratio, also all-zero on empty input. -/
theorem claim_C2_amended :
    (∀ rs : List GradingResult,
      (aggregateResults rs).totalScore = (rs.map GradingResult.score).sum ∧
      (aggregateResults rs).maxPossibleScore = (rs.map GradingResult.maxScore).sum ∧
      (aggregateResults rs).percentage
        = (if (rs.map GradingResult.maxScore).sum > 0 then
            ((jsRound ((rs.map GradingResult.score).sum
              / (rs.map GradingResult.maxScore).sum * 1000) : Int) : Rat) / 10
          else 0)) ∧
    (∀ rs : List GradingResult,
      (calculateOverallScore rs).totalScore = (rs.map GradingResult.score).sum ∧
      (calculateOverallScore rs).maxPossibleScore = (rs.map GradingResult.maxScore).sum ∧
      (calculateOverallScore rs).percentage
        = (if (rs.map GradingResult.maxScore).sum > 0 then
            (rs.map GradingResult.score).sum / (rs.map GradingResult.maxScore).sum * 100
          else 0)) ∧
    aggregateResults [] = ⟨0, 0, 0⟩ ∧ calculateOverallScore [] = ⟨0, 0, 0⟩ := by
  refine ⟨?_, ?_, ?_, rfl⟩
  · intro rs
    rw [aggregateResults_spec]
    exact ⟨rfl, rfl, rfl⟩
  · intro rs
    by_cases hrs : rs = []
    · subst hrs
      refine ⟨rfl, rfl, ?_⟩
      rw [calculateOverallScore]
      norm_num
    · unfold calculateOverallScore
      rw [if_neg hrs, foldl_add_map, foldl_add_map, zero_add, zero_add]
      exact ⟨rfl, rfl, rfl⟩
  · rw [aggregateResults_spec]
    norm_num

/-- Claim C9: for a non-empty list of results with scores between 0 and
their max scores, the route-level percentage equals the one-decimal rounded
ratio and lies between 0 and 100. -/
theorem claim_C9 (rs : List GradingResult) (hne : rs ≠ [])
    (hb : ∀ r ∈ rs, 0 ≤ r.score ∧ r.score ≤ r.maxScore) :
    (aggregateResults rs).percentage
      = ((jsRound ((aggregateResults rs).totalScore
          / (aggregateResults rs).maxPossibleScore * 1000) : Int) : Rat) / 10 ∧
    0 ≤ (aggregateResults rs).percentage ∧ (aggregateResults rs).percentage ≤ 100 := by
  have ht0 : 0 ≤ (rs.map GradingResult.score).sum := by
    apply List.sum_nonneg
    intro x hx
    obtain ⟨r, hr, rfl⟩ := List.mem_map.mp hx
    exact (hb r hr).1
  have htm : (rs.map GradingResult.score).sum ≤ (rs.map GradingResult.maxScore).sum :=
    List.sum_le_sum (fun r hr => (hb r hr).2)
  have hm0 : 0 ≤ (rs.map GradingResult.maxScore).sum := le_trans ht0 htm
  rw [aggregateResults_spec]
  by_cases hm : (rs.map GradingResult.maxScore).sum > 0
  · rw [if_pos hm]
    have hy0 : 0 ≤ (rs.map GradingResult.score).sum
        / (rs.map GradingResult.maxScore).sum * 1000 := by positivity
    have hy1 : (rs.map GradingResult.score).sum
        / (rs.map GradingResult.maxScore).sum * 1000 ≤ ((1000 : Int) : Rat) := by
      have hr1 : (rs.map GradingResult.score).sum
          / (rs.map GradingResult.maxScore).sum ≤ 1 := (div_le_one hm).mpr htm
      push_cast
      nlinarith
    have hj0 := jsRound_nonneg _ hy0
    have hj1 := jsRound_le_int _ 1000 hy1
    refine ⟨rfl, ?_, ?_⟩
    · have : (0:Rat) ≤ ((jsRound ((rs.map GradingResult.score).sum
          / (rs.map GradingResult.maxScore).sum * 1000) : Int) : Rat) := by
        exact_mod_cast hj0
      linarith
    · have : ((jsRound ((rs.map GradingResult.score).sum
          / (rs.map GradingResult.maxScore).sum * 1000) : Int) : Rat) ≤ 1000 := by
        exact_mod_cast hj1
      linarith
  · rw [if_neg hm]
    have hmz : (rs.map GradingResult.maxScore).sum = 0 :=
      le_antisymm (not_lt.mp hm) hm0
    refine ⟨?_, le_refl 0, by norm_num⟩
    rw [hmz, div_zero, zero_mul, jsRound_zero]
    norm_num

theorem claim_C9_witness :
    ([(⟨"q1", 1, 2, "fb", false⟩ : GradingResult)] ≠ []) ∧
    (aggregateResults [⟨"q1", 1, 2, "fb", false⟩]).percentage
      = ((jsRound ((aggregateResults [⟨"q1", 1, 2, "fb", false⟩]).totalScore
          / (aggregateResults [⟨"q1", 1, 2, "fb", false⟩]).maxPossibleScore * 1000)
            : Int) : Rat) / 10 ∧
    0 ≤ (aggregateResults [⟨"q1", 1, 2, "fb", false⟩]).percentage ∧
    (aggregateResults [⟨"q1", 1, 2, "fb", false⟩]).percentage ≤ 100 := by
  refine ⟨by with_unfolding_all decide, ?_⟩
  exact claim_C9 [⟨"q1", 1, 2, "fb", false⟩] (by with_unfolding_all decide)
    (by with_unfolding_all decide)

/-- Claim C6 counterexample: on a scale question the scorer result depends
on the external LLM response, so it is not a function of the question and
answer alone; a failing collaborator yields full credit while a response
scoring 0 yields 0. -/
theorem claim_C6_counterexample :
    calculateScore none (some exScaleQ) (some exScaleUA)
      ≠ calculateScore (some ⟨0, false⟩) (some exScaleQ) (some exScaleUA) := by
  with_unfolding_all decide

/-- Claim C6 amended: the scorer is independent of the external collaborator
and hence deterministic in its inputs on every input that avoids the LLM
path, namely missing or empty inputs and objective question types with a
truthy configured correct answer; subjective paths depend on the external
response. -/
theorem claim_C6_amended (ai1 ai2 : Option AIResp) (oq : Option Question)
    (oua : Option UserAnswer)
    (h : ∀ q ua, oq = some q → oua = some ua → ua.answer ≠ "" →
      (q.type = "yes-no" ∨ q.type = "multiple-choice-single"
        ∨ q.type = "multiple-choice-multi")
      ∧ (truthyStr q.correctAnswer = true ∨ truthyList q.correctAnswers = true)) :
    calculateScore ai1 oq oua = calculateScore ai2 oq oua := by
  cases oq with
  | none => cases oua <;> rfl
  | some q =>
    cases oua with
    | none => rfl
    | some ua =>
      by_cases hans : ua.answer = ""
      · simp only [calculateScore]
        rw [if_pos hans, if_pos hans]
      · have hg := h q ua rfl rfl hans
        simp only [calculateScore]
        rw [if_neg hans, if_pos hg, if_neg hans, if_pos hg]

theorem claim_C6_witness :
    calculateScore (some ⟨0, false⟩) (some exYesQ) (some exYesUA)
      = calculateScore none (some exYesQ) (some exYesUA) := by
  apply claim_C6_amended
  intro q ua hq hua hans
  cases Option.some.inj hq
  exact ⟨Or.inl rfl, Or.inl (by with_unfolding_all decide)⟩

theorem any_toLower_eq_mem (corrects : List String) (b : String) :
    (corrects.any fun c => decide (strLower c = b))
      = decide (b ∈ corrects.map strLower) := by
  induction corrects with
  | nil => rfl
  | cons c t ih =>
    simp only [List.any_cons, List.map_cons, List.mem_cons, ih]
    by_cases hc : strLower c = b
    · simp [hc]
    · simp [hc]
      exact fun h => absurd h.symm hc

theorem length_filter_comp (p : String → Bool) (f : String → String) (l : List String) :
    (l.filter (fun a => p (f a))).length = ((l.map f).filter p).length := by
  induction l with
  | nil => rfl
  | cons a t ih =>
    simp only [List.filter_cons, List.map_cons]
    cases hpa : p (f a)
    · simpa [hpa] using ih
    · simpa [hpa] using ih

theorem multiCorrectCount_eq (corrects sels : List String) :
    multiCorrectCount corrects sels
      = ((sels.map strLower).filter
          (fun b => decide (b ∈ corrects.map strLower))).length := by
  unfold multiCorrectCount
  have hfun : (fun (a : String) => corrects.any (fun c => decide (strLower c = strLower a)))
      = (fun (a : String) => decide (strLower a ∈ corrects.map strLower)) := by
    funext a
    exact any_toLower_eq_mem corrects (strLower a)
  rw [hfun]
  exact length_filter_comp (fun b => decide (b ∈ corrects.map strLower))
    strLower sels

theorem multiCorrectCount_le_of_nodup (corrects sels : List String)
    (h : (sels.map strLower).Nodup) :
    multiCorrectCount corrects sels ≤ corrects.length := by
  rw [multiCorrectCount_eq]
  have hnd : ((sels.map strLower).filter
      (fun b => decide (b ∈ corrects.map strLower))).Nodup := h.filter _
  have hsub : ((sels.map strLower).filter
        (fun b => decide (b ∈ corrects.map strLower)))
      ⊆ corrects.map strLower := by
    intro y hy
    exact of_decide_eq_true (List.mem_filter.mp hy).2
  calc ((sels.map strLower).filter
        (fun b => decide (b ∈ corrects.map strLower))).length
      ≤ (corrects.map strLower).length :=
        (List.subperm_of_subset hnd hsub).length_le
    _ = corrects.length := List.length_map corrects strLower

theorem round2_nonneg (x : Rat) (hx : 0 ≤ x) : 0 ≤ round2 x := by
  rw [round2]
  have h1 := jsRound_nonneg (x * 100) (by positivity)
  have h2 : (0:Rat) ≤ ((jsRound (x * 100) : Int) : Rat) := by exact_mod_cast h1
  exact div_nonneg h2 (by norm_num)

theorem round2_le_of_le_int100 (x M : Rat) (k : Int) (hk : (k:Rat) = 100 * M)
    (hx : x ≤ M) : round2 x ≤ M := by
  rw [round2]
  have h1 : x * 100 ≤ (k:Rat) := by rw [hk]; nlinarith
  have h2 := jsRound_le_int (x * 100) k h1
  have h3 : ((jsRound (x * 100) : Int) : Rat) ≤ (k:Rat) := by exact_mod_cast h2
  rw [hk] at h3
  linarith

theorem exists_int_100_maxScore (w : Rat) (h : ∃ k : Int, 100 * w = (k:Rat)) :
    ∃ k : Int, (k:Rat) = 100 * max 1 (weightOr1 w) := by
  obtain ⟨k, hk⟩ := h
  by_cases hw0 : w = 0
  · exact ⟨100, by rw [weightOr1, if_pos hw0]; norm_num⟩
  · rw [weightOr1, if_neg hw0]
    rcases max_choice 1 w with hmc | hmc
    · exact ⟨100, by rw [hmc]; norm_num⟩
    · exact ⟨k, by rw [hmc]; exact hk.symm⟩

theorem multi_branch_bounds (cN iN nN : Nat) (M : Rat) (hM : 1 ≤ M)
    (hcn : cN ≤ nN) (hn : nN ≠ 0) (k : Int) (hk : (k:Rat) = 100 * M) :
    0 ≤ round2 (max 0 ((cN:Rat) * M / (nN:Rat) - (iN:Rat) * M / (nN:Rat))) ∧
    round2 (max 0 ((cN:Rat) * M / (nN:Rat) - (iN:Rat) * M / (nN:Rat))) ≤ M := by
  have hM0 : (0:Rat) ≤ M := by linarith
  have hn0 : (0:Rat) < (nN:Rat) := by
    have := Nat.pos_of_ne_zero hn
    exact_mod_cast this
  have hX0 : (0:Rat) ≤ max 0 ((cN:Rat) * M / (nN:Rat) - (iN:Rat) * M / (nN:Rat)) :=
    le_max_left _ _
  have hXle : max 0 ((cN:Rat) * M / (nN:Rat) - (iN:Rat) * M / (nN:Rat)) ≤ M := by
    apply max_le hM0
    have h1 : (cN:Rat) * M / (nN:Rat) ≤ M := by
      rw [div_le_iff₀ hn0]
      have hc : (cN:Rat) ≤ (nN:Rat) := by exact_mod_cast hcn
      nlinarith
    have h2 : (0:Rat) ≤ (iN:Rat) * M / (nN:Rat) := by positivity
    linarith
  exact ⟨round2_nonneg _ hX0, round2_le_of_le_int100 _ M k hk hXle⟩

/-- Claim C3 counterexample: a multi-choice answer that repeats one correct
option three times is counted three times against two configured correct
answers, producing score 1.5 above maxScore 1, so the claimed clamping into
the interval from 0 to maxScore fails. -/
theorem claim_C3_counterexample :
    ¬ (0 ≤ (calculateScore none (some exDupQ) (some exDupUA)).score ∧
       (calculateScore none (some exDupQ) (some exDupUA)).score
         ≤ (calculateScore none (some exDupQ) (some exDupUA)).maxScore) := by
  with_unfolding_all decide

/-- Claim C3 amended: the score is always non-negative, and it is bounded by
maxScore provided that multi-choice selections are pairwise distinct after
trimming and case-folding and the weight has at most two decimal places;
repeated selections can push the multi-choice score above maxScore. -/
theorem claim_C3_amended (ai : Option AIResp) (oq : Option Question)
    (oua : Option UserAnswer)
    (h : ∀ q ua, oq = some q → oua = some ua → q.type = "multiple-choice-multi" →
      ((userSelections ua.answer).map strLower).Nodup
        ∧ ∃ k : Int, 100 * q.weight = (k:Rat)) :
    0 ≤ (calculateScore ai oq oua).score ∧
    (calculateScore ai oq oua).score ≤ (calculateScore ai oq oua).maxScore := by
  cases oq with
  | none =>
    cases oua <;> exact ⟨le_refl 0, show (0:Rat) ≤ (1:Rat) by norm_num⟩
  | some q =>
    cases oua with
    | none => exact ⟨le_refl 0, show (0:Rat) ≤ (1:Rat) by norm_num⟩
    | some ua =>
      have hM1 : (1:Rat) ≤ max 1 (weightOr1 q.weight) := one_le_maxScore q.weight
      have hM0 : (0:Rat) ≤ max 1 (weightOr1 q.weight) := by linarith
      simp only [calculateScore]
      by_cases hans : ua.answer = ""
      · rw [if_pos hans]
        exact ⟨le_refl 0, hM0⟩
      · rw [if_neg hans]
        by_cases hguard : (q.type = "yes-no" ∨ q.type = "multiple-choice-single"
              ∨ q.type = "multiple-choice-multi")
            ∧ (truthyStr q.correctAnswer = true ∨ truthyList q.correctAnswers = true)
        · rw [if_pos hguard]
          by_cases hmulti : q.type = "multiple-choice-multi"
          · rw [if_pos hmulti]
            obtain ⟨hnd, hint⟩ := h q ua rfl rfl hmulti
            by_cases hlen : (effectiveCorrects q).length = 0
            · rw [if_pos hlen]
              exact ⟨le_refl 0, hM0⟩
            · rw [if_neg hlen]
              obtain ⟨k, hk⟩ := exists_int_100_maxScore q.weight hint
              exact multi_branch_bounds _ _ _ _ hM1
                (multiCorrectCount_le_of_nodup _ _ hnd) hlen k hk
          · rw [if_neg hmulti]
            split
            next ca hca =>
              split_ifs with h1 h2
              · exact ⟨le_refl 0, hM0⟩
              · exact ⟨hM0, le_refl _⟩
              · exact ⟨le_refl 0, hM0⟩
            next hca => exact ⟨le_refl 0, hM0⟩
        · rw [if_neg hguard]
          cases ai with
          | none => exact ⟨hM0, le_refl _⟩
          | some r =>
            constructor
            · exact le_max_left 0 _
            · exact max_le hM0 (min_le_left _ _)

set_option maxRecDepth 16384 in
theorem claim_C3_witness :
    0 ≤ (calculateScore none (some exMultiQ) (some exMultiUA)).score ∧
    (calculateScore none (some exMultiQ) (some exMultiUA)).score
      ≤ (calculateScore none (some exMultiQ) (some exMultiUA)).maxScore := by
  apply claim_C3_amended
  intro q ua hq hua hty
  cases Option.some.inj hq
  cases Option.some.inj hua
  refine ⟨by with_unfolding_all decide, 1000, by with_unfolding_all decide⟩

theorem multiCorrectCount_superset (corrects sels : List String) (x : String)
    (hperm : (sels.map strLower).Perm (((corrects.map strLower).dedup) ++ [x]))
    (hx : x ∉ corrects.map strLower) :
    multiCorrectCount corrects sels = (corrects.map strLower).dedup.length := by
  rw [multiCorrectCount_eq]
  have hpf := hperm.filter (fun b => decide (b ∈ corrects.map strLower))
  rw [hpf.length_eq, List.filter_append]
  have h1 : (corrects.map strLower).dedup.filter
        (fun b => decide (b ∈ corrects.map strLower))
      = (corrects.map strLower).dedup :=
    List.filter_eq_self.mpr (fun b hb => decide_eq_true (List.mem_dedup.mp hb))
  have h2 : [x].filter (fun b => decide (b ∈ corrects.map strLower)) = [] := by
    have hdx : decide (x ∈ corrects.map strLower) = false := decide_eq_false hx
    rw [List.filter_cons_of_neg]
    · rfl
    · show ¬ (decide (x ∈ corrects.map strLower) = true)
      rw [hdx]
      exact Bool.false_ne_true
  rw [h1, h2, List.append_nil]

theorem superset_branch_bounds (dN nN : Nat) (M : Rat) (hM : 1 ≤ M)
    (hd1 : 0 < dN) (hdn : dN ≤ nN) (hn : (nN:Rat) < 200 * M) :
    round2 (max 0 ((dN:Rat) * M / (nN:Rat) - ((1:Nat):Rat) * M / (nN:Rat))) < M ∧
    decide (max 0 ((dN:Rat) * M / (nN:Rat) - ((1:Nat):Rat) * M / (nN:Rat)) = M)
      = false := by
  have hM0 : (0:Rat) ≤ M := by linarith
  have hnN : 0 < nN := lt_of_lt_of_le hd1 hdn
  have hn0 : (0:Rat) < (nN:Rat) := by exact_mod_cast hnN
  have hd1R : (1:Rat) ≤ (dN:Rat) := by exact_mod_cast hd1
  have hdnR : (dN:Rat) ≤ (nN:Rat) := by exact_mod_cast hdn
  have hXval : (dN:Rat) * M / (nN:Rat) - ((1:Nat):Rat) * M / (nN:Rat)
      = ((dN:Rat) - 1) * M / (nN:Rat) := by push_cast; ring
  have hXnn : (0:Rat) ≤ ((dN:Rat) - 1) * M / (nN:Rat) := by
    apply div_nonneg _ (le_of_lt hn0)
    apply mul_nonneg _ hM0
    linarith
  have hmax : max 0 ((dN:Rat) * M / (nN:Rat) - ((1:Nat):Rat) * M / (nN:Rat))
      = ((dN:Rat) - 1) * M / (nN:Rat) := by
    rw [hXval]
    exact max_eq_right hXnn
  have hMn : (1:Rat) / 200 < M / (nN:Rat) := by
    rw [div_lt_div_iff₀ (by norm_num) hn0]
    linarith
  have hXleM : ((dN:Rat) - 1) * M / (nN:Rat) ≤ M - M / (nN:Rat) := by
    rw [div_le_iff₀ hn0]
    have hcancel : M / (nN:Rat) * (nN:Rat) = M := div_mul_cancel₀ _ (ne_of_gt hn0)
    nlinarith [hcancel, mul_le_mul_of_nonneg_right hdnR hM0]
  have hlt : (((dN:Rat) - 1) * M / (nN:Rat)) * 100 + 1/2 < 100 * M := by
    linarith
  constructor
  · rw [hmax, round2, jsRound]
    have hfl : ((⌊(((dN:Rat) - 1) * M / (nN:Rat)) * 100 + 1/2⌋ : Int) : Rat)
        ≤ (((dN:Rat) - 1) * M / (nN:Rat)) * 100 + 1/2 := Int.floor_le _
    linarith
  · rw [hmax]
    apply decide_eq_false
    intro heq
    rw [heq] at hXleM
    linarith

theorem calculateScore_multi_branch (ai : Option AIResp) (q : Question)
    (ua : UserAnswer)
    (hty : q.type = "multiple-choice-multi") (hcor : effectiveCorrects q ≠ [])
    (hans : ua.answer ≠ "") :
    calculateScore ai (some q) (some ua)
      = ⟨round2 (max 0
            ((multiCorrectCount (effectiveCorrects q) (userSelections ua.answer) : Rat)
                * max 1 (weightOr1 q.weight) / ((effectiveCorrects q).length : Rat)
              - (((userSelections ua.answer).length
                  - multiCorrectCount (effectiveCorrects q) (userSelections ua.answer)
                    : Nat) : Rat)
                * max 1 (weightOr1 q.weight) / ((effectiveCorrects q).length : Rat))),
          max 1 (weightOr1 q.weight),
          decide (max 0
            ((multiCorrectCount (effectiveCorrects q) (userSelections ua.answer) : Rat)
                * max 1 (weightOr1 q.weight) / ((effectiveCorrects q).length : Rat)
              - (((userSelections ua.answer).length
                  - multiCorrectCount (effectiveCorrects q) (userSelections ua.answer)
                    : Nat) : Rat)
                * max 1 (weightOr1 q.weight) / ((effectiveCorrects q).length : Rat))
            = max 1 (weightOr1 q.weight))⟩ := by
  have hg := truthy_of_corrects_ne_nil q hcor
  have hlen : ¬ (effectiveCorrects q).length = 0 := by
    simpa [List.length_eq_zero] using hcor
  simp only [calculateScore]
  rw [if_neg hans, if_pos (And.intro (Or.inr (Or.inr hty)) hg), if_pos hty,
    if_neg hlen]

set_option maxRecDepth 100000 in
/-- Claim C8 counterexample: with 201 correct options and weight 1, the
answer selecting all of them plus one incorrect option scores 200/201
before rounding, and two-decimal rounding lifts the returned score to 1,
equal to maxScore instead of strictly below it. -/
theorem claim_C8_counterexample :
    ¬ ((calculateScore none (some bigQ) (some bigUA)).score
        < (calculateScore none (some bigQ) (some bigUA)).maxScore) := by
  have hsel : userSelections bigUA.answer = bigCorrects ++ ["zz"] := by
    with_unfolding_all decide
  have hzl : strLower ("zz") = "zz" := by with_unfolding_all decide
  have hzz : ("zz") ∉ bigCorrects := by with_unfolding_all decide
  have htn : ∀ n < 123, (Char.ofNat n).toNat = n := by decide
  have hlow : ∀ k < 26, Char.toLower (Char.ofNat (97 + k)) = Char.ofNat (97 + k) := by
    decide
  have hfix : bigCorrects.map strLower = bigCorrects := by
    unfold bigCorrects
    rw [List.map_map]
    apply List.map_congr_left
    intro i hi
    rw [List.mem_range] at hi
    show String.mk [Char.toLower (Char.ofNat (97 + i / 26)),
        Char.toLower (Char.ofNat (97 + i % 26))]
      = String.mk [Char.ofNat (97 + i / 26), Char.ofNat (97 + i % 26)]
    rw [hlow (i / 26) (by omega), hlow (i % 26) (by omega)]
  have hnodup : bigCorrects.Nodup := by
    unfold bigCorrects
    refine List.Nodup.map_on ?_ (List.nodup_range 201)
    intro i hi j hj heq
    rw [List.mem_range] at hi hj
    have hdata : ([Char.ofNat (97 + i / 26), Char.ofNat (97 + i % 26)] : List Char)
        = [Char.ofNat (97 + j / 26), Char.ofNat (97 + j % 26)] :=
      congrArg String.data heq
    simp only [List.cons.injEq, and_true] at hdata
    obtain ⟨ha, hb⟩ := hdata
    have ha2 := congrArg Char.toNat ha
    have hb2 := congrArg Char.toNat hb
    rw [htn (97 + i / 26) (by omega), htn (97 + j / 26) (by omega)] at ha2
    rw [htn (97 + i % 26) (by omega), htn (97 + j % 26) (by omega)] at hb2
    omega
  have hded : (bigCorrects.map strLower).dedup = bigCorrects := by
    rw [hfix]
    exact List.dedup_eq_self.mpr hnodup
  have hmap : (userSelections bigUA.answer).map strLower = bigCorrects ++ ["zz"] := by
    rw [hsel, List.map_append, hfix]
    show bigCorrects ++ [strLower ("zz")] = bigCorrects ++ ["zz"]
    rw [hzl]
  have hlen201 : bigCorrects.length = 201 := by
    unfold bigCorrects
    rw [List.length_map, List.length_range]
  have hec : effectiveCorrects bigQ = bigCorrects := rfl
  have hcor : effectiveCorrects bigQ ≠ [] := by
    rw [hec]
    intro h
    rw [h] at hlen201
    simp at hlen201
  have hans : bigUA.answer ≠ "" := by with_unfolding_all decide
  have hcount : multiCorrectCount (effectiveCorrects bigQ) (userSelections bigUA.answer)
      = 201 := by
    rw [hec]
    have h := multiCorrectCount_superset bigCorrects (userSelections bigUA.answer) ("zz")
      (by rw [hmap, hded]) (by rw [hfix]; exact hzz)
    rw [h, hded, hlen201]
  have hul : (userSelections bigUA.answer).length = 202 := by
    rw [hsel]
    simp [hlen201]
  have hi1 : (userSelections bigUA.answer).length
      - multiCorrectCount (effectiveCorrects bigQ) (userSelections bigUA.answer) = 1 := by
    rw [hul, hcount]
  rw [calculateScore_multi_branch none bigQ bigUA rfl hcor hans, hi1, hcount, hec,
    hlen201]
  with_unfolding_all decide

/-- Claim C8 amended: a strict-superset answer listing every correct option
once plus one incorrect option always has isCorrect false and, whenever
totalCorrect is below 200 times maxScore, a returned score strictly below
maxScore; with totalCorrect at least 200 times maxScore the two-decimal
rounding can return exactly maxScore. -/
theorem claim_C8_amended (ai : Option AIResp) (q : Question) (ua : UserAnswer)
    (x : String)
    (hty : q.type = "multiple-choice-multi") (hcor : effectiveCorrects q ≠ [])
    (hans : ua.answer ≠ "")
    (hperm : ((userSelections ua.answer).map strLower).Perm
      ((((effectiveCorrects q).map strLower).dedup) ++ [x]))
    (hx : x ∉ (effectiveCorrects q).map strLower)
    (hn : ((effectiveCorrects q).length : Rat) < 200 * max 1 (weightOr1 q.weight)) :
    (calculateScore ai (some q) (some ua)).score
        < (calculateScore ai (some q) (some ua)).maxScore ∧
    (calculateScore ai (some q) (some ua)).isCorrect = false := by
  have hg := truthy_of_corrects_ne_nil q hcor
  have hlen : ¬ (effectiveCorrects q).length = 0 := by
    simpa [List.length_eq_zero] using hcor
  have hc := multiCorrectCount_superset (effectiveCorrects q)
    (userSelections ua.answer) x hperm hx
  have hslen : (userSelections ua.answer).length
      = ((effectiveCorrects q).map strLower).dedup.length + 1 := by
    have h := hperm.length_eq
    simpa using h
  have hi : (userSelections ua.answer).length
      - multiCorrectCount (effectiveCorrects q) (userSelections ua.answer) = 1 := by
    rw [hc, hslen]
    omega
  have hd1 : 0 < ((effectiveCorrects q).map strLower).dedup.length := by
    apply List.length_pos.mpr
    intro hnil
    rw [List.dedup_eq_nil] at hnil
    exact hcor (by simpa using hnil)
  have hdn : ((effectiveCorrects q).map strLower).dedup.length
      ≤ (effectiveCorrects q).length := by
    have h := (List.dedup_sublist ((effectiveCorrects q).map strLower)).length_le
    simpa using h
  simp only [calculateScore]
  rw [if_neg hans, if_pos (And.intro (Or.inr (Or.inr hty)) hg), if_pos hty,
    if_neg hlen, hi, hc]
  exact superset_branch_bounds _ _ _ (one_le_maxScore q.weight) hd1 hdn hn

theorem claim_C8_witness :
    (calculateScore none (some exSupQ) (some exSupUA)).score
        < (calculateScore none (some exSupQ) (some exSupUA)).maxScore ∧
    (calculateScore none (some exSupQ) (some exSupUA)).isCorrect = false := by
  exact claim_C8_amended none exSupQ exSupUA ("z") rfl
    (by with_unfolding_all decide) (by with_unfolding_all decide)
    (by with_unfolding_all decide) (by with_unfolding_all decide)
    (by with_unfolding_all decide)
